import Mathlib

/-
Verification of the conversation-bridge codebase (che_voz).

Shallow embedding of the Python sources into Lean 4:
- Python dicts become insertion-ordered association lists (`dget`, `dset`,
  `ddel`), matching dict semantics: one entry per key, lookup by key,
  update in place, insertion appends at the end.
- Fallible code (KeyError, raised exceptions) returns `Option` / `Except`.
- `bytes` values are `List Nat` with every element `< 256`.
- `datetime` values are integer microsecond timestamps (`Int`).

Source files embedded below:
  src/infrastructure/agent_factory.py   (ElevenLabsAgentFactory)
  src/services/agent_mapping.py         (AgentMapper)
  src/services/audio_bridge.py          (TwilioAudioInterface, AudioBridge)
  src/services/elevenlabs_service.py    (ElevenLabsConversationHandler)
  src/services/conversation_service.py  (ConversationService)
  src/domain/services.py                (CallSessionService)
  src/models/conversation.py            (ConversationHistory.get_summary)
-/

set_option autoImplicit false

universe u

/-- Python `str.upper()` (ASCII; agrees with the region codes used here).
Defined over the character list so that concrete instances evaluate. -/
def pyUpper (s : String) : String := ⟨s.data.map Char.toUpper⟩

/-- Python `str.lower()` (ASCII; agrees with the language tags used here). -/
def pyLower (s : String) : String := ⟨s.data.map Char.toLower⟩

/-- Python dict lookup `d.get(k)` / `d[k]`: first (unique) entry for the key. -/
def dget {α : Type u} (k : String) : List (String × α) → Option α
  | [] => none
  | (k', v) :: rest => if k' = k then some v else dget k rest

/-- Python dict update `d[k] = v`: replace in place if the key exists, else append. -/
def dset {α : Type u} (k : String) (v : α) : List (String × α) → List (String × α)
  | [] => [(k, v)]
  | (k', v') :: rest => if k' = k then (k, v) :: rest else (k', v') :: dset k v rest

/-- Python dict deletion `del d[k]`: the key is removed from the dict. -/
def ddel {α : Type u} (k : String) (d : List (String × α)) : List (String × α) :=
  d.filter (fun p => p.1 ≠ k)

/-- Python membership test `k in d`. -/
def dmem {α : Type u} (k : String) (d : List (String × α)) : Bool :=
  (dget k d).isSome

/-
Agent model (src/domain/models.py, dataclass Agent).
-/

structure Agent where
  agent_id : String
  name : String
  language : String
  context : String
  country_code : String
  api_key : Option String
deriving Repr, DecidableEq

/-- An agent configuration dict as stored in `ElevenLabsAgentFactory._agents`
and `agent_mapping.AGENT_MAP`: a Python dict with string values. -/
def RawConfig : Type := List (String × String)

/-
ElevenLabsAgentFactory (src/infrastructure/agent_factory.py).
The five default configurations, in source (= dict insertion) order.
-/

def arConfig : RawConfig :=
  [("agent_id", "agent_3601k52aw9jmej0a61svgk2hm0t1"),
   ("name", "Agente Porteño"),
   ("context", "Sos un asistente argentino copado. Usá \x27che\x27, \x27boludo\x27 (amigablemente), \x27bárbaro\x27. Sé cordial y profesional."),
   ("language", "es-AR")]

def arCbaConfig : RawConfig :=
  [("agent_id", "agent_4201k59pp9k7epq8t6pq5n79b9k1"),
   ("name", "Agente Cordobés"),
   ("context", "Sos un asistente cordobés muy copado. Usá \x27culia\x27, \x27qué tal\x27, \x27todo joya\x27. Sé amigable y relajado como un verdadero cordobés."),
   ("language", "es-AR")]

def mxConfig : RawConfig :=
  [("agent_id", "agent_3601k52b7a5nff29cgwj04h3m0xt"),
   ("name", "Agente Mexicano"),
   ("context", "Eres un asistente amigable mexicano. Usa expresiones como \x27qué onda\x27, \x27órale\x27, \x27sale\x27. Sé cálido y servicial."),
   ("language", "es-MX")]

def coConfig : RawConfig :=
  [("agent_id", "agent_2201k52bqy0bff2ag591exhzjaxf"),
   ("name", "Agente Colombiana"),
   ("context", "Eres una asistente colombiana amigable. Usa expresiones como \x27parcero\x27, \x27qué más\x27, \x27bacano\x27. Sé cálida y servicial."),
   ("language", "es-CO")]

def mendocinoConfig : RawConfig :=
  [("agent_id", "agent_7601k57zdzznesfrwpf8hfpemjvf"),
   ("name", "Mendocino"),
   ("context", "[Context is configured in ElevenLabs - this field is informational only]"),
   ("language", "es-AR")]

/-- `self._agents` right after `ElevenLabsAgentFactory.__init__`. -/
def initial_agents : List (String × RawConfig) :=
  [("AR", arConfig), ("AR_CBA", arCbaConfig), ("MX", mxConfig),
   ("CO", coConfig), ("MENDOCINO", mendocinoConfig)]

/-- `self._default_country`. -/
def default_country : String := "AR"

/-- Building the `Agent` dataclass from a stored config dict
(`agent_factory.py` lines 98-105). `config["agent_id"]` etc. can raise
`KeyError` on an incomplete dict, hence `Option`;
`config.get("api_key")` cannot. -/
def agentOfConfig (code : String) (cfg : RawConfig) : Option Agent :=
  match dget "agent_id" cfg, dget "name" cfg, dget "language" cfg, dget "context" cfg with
  | some i, some n, some l, some c =>
      some { agent_id := i, name := n, language := l, context := c,
             country_code := code, api_key := dget "api_key" cfg }
  | _, _, _, _ => none

/-- `ElevenLabsAgentFactory.create_agent`: uppercase the code, fall back to
the default country when the code is unknown, then build the `Agent`. -/
def create_agent (agents : List (String × RawConfig)) (country_code : String) : Option Agent :=
  let cc0 := pyUpper country_code
  let cc := if dmem cc0 agents then cc0 else default_country
  match dget cc agents with
  | some cfg => agentOfConfig cc cfg
  | none => none

/-- The four required fields of `ElevenLabsAgentFactory.register_agent`,
in source order. -/
def required_fields : List String := ["agent_id", "name", "language", "context"]

/-- The validation loop of `register_agent`: returns the first required
field missing from the config, if any. -/
def check_required (cfg : RawConfig) : List String → Option String
  | [] => none
  | f :: rest => if dmem f cfg then check_required cfg rest else some f

/-- `ElevenLabsAgentFactory.register_agent`: raise `ValueError` naming the
first missing required field (before touching `self._agents`), otherwise
store the config under the uppercased country code. -/
def register_agent (agents : List (String × RawConfig)) (country_code : String)
    (agent_config : RawConfig) : Except String (List (String × RawConfig)) :=
  match check_required agent_config required_fields with
  | some f => .error ("Missing required field: " ++ f)
  | none => .ok (dset (pyUpper country_code) agent_config agents)

/-- The `for country_code, config in self._agents.items()` loop of
`ElevenLabsAgentFactory.get_agent_by_language`: `config["language"]` can
raise `KeyError` (outer `none`); a completed loop returns Python `None`
(`some none`); a case-insensitive match returns `create_agent(country_code)`
on the full factory state. -/
def language_loop (agents : List (String × RawConfig)) (language_code : String) :
    List (String × RawConfig) → Option (Option Agent)
  | [] => some none
  | (cc, cfg) :: rest =>
      match dget "language" cfg with
      | none => none
      | some l =>
          if pyLower l = pyLower language_code then
            match create_agent agents cc with
            | some a => some (some a)
            | none => none
          else language_loop agents language_code rest

/-- `ElevenLabsAgentFactory.get_agent_by_language`. -/
def get_agent_by_language (agents : List (String × RawConfig)) (language_code : String) :
    Option (Option Agent) :=
  language_loop agents language_code agents

/-
AgentMapper (src/services/agent_mapping.py).
-/

def mapMxConfig : RawConfig :=
  [("agent_id", "agent_mexico_123"),
   ("name", "Agente México"),
   ("context", "Eres un asistente amigable mexicano. Usa expresiones como \x27qué onda\x27, \x27órale\x27, \x27sale\x27. Sé cálido y servicial."),
   ("language", "es-MX")]

def mapArConfig : RawConfig :=
  [("agent_id", "agent_argentina_456"),
   ("name", "Agente Argentina"),
   ("context", "Sos un asistente argentino copado. Usá \x27che\x27, \x27boludo\x27 (amigablemente), \x27bárbaro\x27. Sé cordial y profesional."),
   ("language", "es-AR")]

def mapEsConfig : RawConfig :=
  [("agent_id", "agent_spain_789"),
   ("name", "Agente España"),
   ("context", "Eres un asistente español. Usa \x27vale\x27, \x27tío/tía\x27, \x27guay\x27. Sé profesional pero cercano."),
   ("language", "es-ES")]

def mapUsConfig : RawConfig :=
  [("agent_id", "agent_usa_101"),
   ("name", "US Agent"),
   ("context", "You\x27re a friendly American assistant. Be professional, helpful, and use casual American expressions."),
   ("language", "en-US")]

def mapGbConfig : RawConfig :=
  [("agent_id", "agent_uk_102"),
   ("name", "UK Agent"),
   ("context", "You\x27re a British assistant. Use British expressions like \x27brilliant\x27, \x27cheers\x27. Be polite and professional."),
   ("language", "en-GB")]

def mapBrConfig : RawConfig :=
  [("agent_id", "agent_brazil_103"),
   ("name", "Agente Brasil"),
   ("context", "Você é um assistente brasileiro amigável. Use expressões como \x27opa\x27, \x27beleza\x27, \x27valeu\x27. Seja cordial e prestativo."),
   ("language", "pt-BR")]

/-- `agent_mapping.AGENT_MAP` in source order. -/
def AGENT_MAP : List (String × RawConfig) :=
  [("MX", mapMxConfig), ("AR", mapArConfig), ("ES", mapEsConfig),
   ("US", mapUsConfig), ("GB", mapGbConfig), ("BR", mapBrConfig)]

/-- `agent_mapping.DEFAULT_AGENT = AGENT_MAP["US"]`. -/
def DEFAULT_AGENT : RawConfig := mapUsConfig

/-- `AgentMapper.get_agent_by_country`:
`self.agent_map.get(country_code.upper(), DEFAULT_AGENT)`. -/
def mapper_get_agent_by_country (country_code : String) : RawConfig :=
  (dget (pyUpper country_code) AGENT_MAP).getD DEFAULT_AGENT

/-- The `for country, agent in self.agent_map.items()` loop of
`AgentMapper.get_agent_by_language`; a completed loop returns
`DEFAULT_AGENT`. `agent["language"]` can raise `KeyError` (outer `none`). -/
def mapper_language_loop (language_code : String) :
    List (String × RawConfig) → Option RawConfig
  | [] => some DEFAULT_AGENT
  | (_, cfg) :: rest =>
      match dget "language" cfg with
      | none => none
      | some l =>
          if pyLower l = pyLower language_code then some cfg
          else mapper_language_loop language_code rest

/-- `AgentMapper.get_agent_by_language`. -/
def mapper_get_agent_by_language (language_code : String) : Option RawConfig :=
  mapper_language_loop language_code AGENT_MAP

/-- A config dict has all four fields `create_agent` reads. -/
def completeConfig (cfg : RawConfig) : Bool :=
  dmem "agent_id" cfg && dmem "name" cfg && dmem "language" cfg && dmem "context" cfg

/-
Base64 (Python `base64.b64encode` / `b64decode`), embedded over byte lists
(`List Nat`, elements < 256). Encoded text is a list of ASCII codes;
`=` is code 61. `b64decodeBytes` is the decoder on inputs whose characters
are drawn from the standard alphabet plus padding, the only inputs the
claims exercise; malformed input is `none` (Python raises `binascii.Error`).
-/

def b64alphabet : List Nat :=
  "ABCDEFGHIJKLMNOPQRSTUVWXYZabcdefghijklmnopqrstuvwxyz0123456789+/".data.map Char.toNat

def encChar (i : Nat) : Nat := b64alphabet.getD i 0

def decChar (c : Nat) : Option Nat := b64alphabet.findIdx? (fun x => x == c)

def b64encodeBytes : List Nat → List Nat
  | [] => []
  | [a] => [encChar (a / 4), encChar (a % 4 * 16), 61, 61]
  | [a, b] => [encChar (a / 4), encChar (a % 4 * 16 + b / 16), encChar (b % 16 * 4), 61]
  | a :: b :: c :: rest =>
      encChar (a / 4) :: encChar (a % 4 * 16 + b / 16) ::
      encChar (b % 16 * 4 + c / 64) :: encChar (c % 64) :: b64encodeBytes rest

def b64decodeBytes : List Nat → Option (List Nat)
  | [] => some []
  | c1 :: c2 :: c3 :: c4 :: rest =>
      match decChar c1, decChar c2 with
      | some x1, some x2 =>
          if c3 = 61 then
            if c4 = 61 ∧ rest = [] then some [x1 * 4 + x2 / 16] else none
          else
            match decChar c3 with
            | some x3 =>
                if c4 = 61 then
                  if rest = [] then some [x1 * 4 + x2 / 16, x2 % 16 * 16 + x3 / 4] else none
                else
                  match decChar c4 with
                  | some x4 =>
                      (b64decodeBytes rest).map
                        (fun tl => (x1 * 4 + x2 / 16) :: (x2 % 16 * 16 + x3 / 4) ::
                                   (x3 % 4 * 64 + x4) :: tl)
                  | none => none
            | none => none
      | _, _ => none
  | _ => none

/-
TwilioAudioInterface (src/services/audio_bridge.py).
Inbound wire frames, by their `event` discriminator.
-/

inductive TwilioMsg where
  | connected (streamSid : Option String)
  | start (callSid : Option String)
  | media (payload : List Nat)
  | stop
  | unknownEvent (event : String)
deriving Repr, DecidableEq

/-- `TwilioAudioInterface.receive_audio_from_twilio`: the generator of
decoded audio chunks. `connected`/`start` frames update ids and continue,
`media` frames yield `b64decode(payload)`, `stop` breaks, events outside
the chain are skipped; any exception (socket closed, decode error) is
caught, logged, and ends the generator. -/
def twilio_receive_audio : List TwilioMsg → List (List Nat)
  | [] => []
  | .connected _ :: rest => twilio_receive_audio rest
  | .start _ :: rest => twilio_receive_audio rest
  | .media p :: rest =>
      match b64decodeBytes p with
      | some audio => audio :: twilio_receive_audio rest
      | none => []
  | .stop :: _ => []
  | .unknownEvent _ :: rest => twilio_receive_audio rest

/-- `ElevenLabsConversationHandler.send_audio` (elevenlabs_service.py lines
242-244): a documented legacy no-op (`pass`) — nothing is appended to the
agent-socket send list. -/
def handler_send_audio (sent_to_agent : List (List Nat)) (_audio : List Nat) :
    List (List Nat) := sent_to_agent

/-- The caller-to-agent direction of `AudioBridge.bridge_streams`
(`twilio_to_elevenlabs`): every chunk yielded by the adapter is passed to
`elevenlabs_conversation.send_audio`. The `active_bridges` flag it also
checks stays `True` for the whole run (it is only deleted after
`asyncio.gather` returns), so it is not modelled. -/
def twilio_to_elevenlabs (msgs : List TwilioMsg) : List (List Nat) :=
  (twilio_receive_audio msgs).foldl handler_send_audio []

/-- `{"event": "media", "streamSid": ..., "media": {"payload": base64}}`. -/
structure TwilioMediaFrame where
  event : String
  streamSid : Option String
  payload : List Nat
deriving Repr, DecidableEq

/-- `TwilioAudioInterface.send_audio_to_twilio`: base64-encode the chunk and
frame it for the telephony socket. -/
def twilio_send_audio_frame (sid : Option String) (audio : List Nat) : TwilioMediaFrame :=
  { event := "media", streamSid := sid, payload := b64encodeBytes audio }

/-- The agent-to-caller direction of `AudioBridge.bridge_streams`
(`elevenlabs_to_twilio`): every chunk from `receive_audio` is framed and
sent to the telephony socket. -/
def elevenlabs_to_twilio (sid : Option String) (chunks : List (List Nat)) :
    List TwilioMediaFrame :=
  chunks.map (twilio_send_audio_frame sid)

/-
Small-step model of `AudioBridge.bridge_streams` under `asyncio.gather`:
the two directions are interleaved by a schedule (`true` steps the
caller-to-agent task, `false` the agent-to-caller task); `gather` neither
stops at the first completion nor cancels the sibling, so a completed
task merely no-ops while the other keeps running.
-/

structure BridgeState where
  twilio_in : List TwilioMsg
  agent_chunks : List (List Nat)
  stream_sid : Option String
  sent_to_agent : List (List Nat)
  sent_to_caller : List TwilioMediaFrame
  t2e_done : Bool
  e2t_done : Bool
deriving Repr, DecidableEq

/-- One iteration of the `twilio_to_elevenlabs` loop (or a no-op once the
task has completed). -/
def t2eStep (s : BridgeState) : BridgeState :=
  if s.t2e_done then s else
  match s.twilio_in with
  | [] => { s with t2e_done := true }
  | .connected sid :: rest => { s with twilio_in := rest, stream_sid := sid }
  | .start _ :: rest => { s with twilio_in := rest }
  | .media p :: rest =>
      match b64decodeBytes p with
      | some audio =>
          { s with twilio_in := rest,
                   sent_to_agent := handler_send_audio s.sent_to_agent audio }
      | none => { s with twilio_in := rest, t2e_done := true }
  | .stop :: rest => { s with twilio_in := rest, t2e_done := true }
  | .unknownEvent _ :: rest => { s with twilio_in := rest }

/-- One iteration of the `elevenlabs_to_twilio` loop (or a no-op once the
task has completed). -/
def e2tStep (s : BridgeState) : BridgeState :=
  if s.e2t_done then s else
  match s.agent_chunks with
  | [] => { s with e2t_done := true }
  | c :: rest =>
      { s with agent_chunks := rest,
               sent_to_caller := s.sent_to_caller ++ [twilio_send_audio_frame s.stream_sid c] }

/-- `asyncio.gather(twilio_to_elevenlabs(), elevenlabs_to_twilio())`:
both tasks run for as long as the schedule drives them; no completion of
one ever stops or cancels the other. -/
def bridgeRun : List Bool → BridgeState → BridgeState
  | [], s => s
  | b :: sched, s => bridgeRun sched (if b then t2eStep s else e2tStep s)

/-
ElevenLabsConversationHandler (src/services/elevenlabs_service.py).
Inbound agent wire messages, as the fields `forward_from_elevenlabs` reads:
`type` is `data.get("type", "")`; `audio_event` is present iff the
`"audio_event"` key is (inner value `audio_event.get("audio_base_64")`);
`user_transcript`/`agent_response` are the nested texts with default `""`;
`error` is present iff the `"error"` key is.
-/

structure AgentRawMsg where
  type : String
  init_conversation_id : Option String
  audio_event : Option (Option String)
  user_transcript : String
  agent_response : String
  error : Option String
deriving Repr, DecidableEq

/-- Messages the handler sends to the frontend socket (`send_json`). -/
inductive FrontendOut where
  | conversation_started (conversation_id : Option String)
  | audio (data : String)
  | user_transcript (text : String)
  | agent_response (text : String)
  | error (message : String)
deriving Repr, DecidableEq

/-- Observable effects of the agent-to-caller relay: a frontend send, or a
`conversation_service.add_message(speaker, text)` call. -/
inductive RelayAction where
  | toFrontend (m : FrontendOut)
  | record (speaker : String) (text : String)
deriving Repr, DecidableEq

/-- Python truthiness of an optional string (`None` and `""` are falsy). -/
def truthy : Option String → Bool
  | some s => s != ""
  | none => false

/-- The dispatch chain of `forward_from_elevenlabs` for one received wire
message: classification by discriminator, in source order; the final `else`
(unrecognized message) only logs. -/
def process_agent_message (conversation_id : Option String) (m : AgentRawMsg) :
    List RelayAction :=
  if m.type = "conversation_initiation_metadata" then
    [.toFrontend (.conversation_started m.init_conversation_id)]
  else if m.audio_event.isSome then
    match m.audio_event with
    | some (some s) => if s != "" then [.toFrontend (.audio s)] else []
    | _ => []
  else if m.type = "user_transcript" then
    (if truthy conversation_id && (m.user_transcript != "") then
      [.record "user" m.user_transcript] else []) ++
    [.toFrontend (.user_transcript m.user_transcript)]
  else if m.type = "agent_response" then
    (if truthy conversation_id && (m.agent_response != "") then
      [.record "agent" m.agent_response] else []) ++
    [.toFrontend (.agent_response m.agent_response)]
  else if m.type = "ping" then []
  else if m.error.isSome then
    [.toFrontend (.error (m.error.getD "Unknown error"))]
  else []

/-- The `while self.is_active` receive loop of `forward_from_elevenlabs`
over a finite inbound stream: no dispatch branch breaks the loop or raises,
so the loop processes every message in order (the stream closing ends it). -/
def forward_from_elevenlabs (conversation_id : Option String) :
    List AgentRawMsg → List RelayAction
  | [] => []
  | m :: rest =>
      process_agent_message conversation_id m ++ forward_from_elevenlabs conversation_id rest

/-- A wire message that falls through every branch of the dispatch chain:
its `type` matches no known event name and it carries neither an
`audio_event` nor an `error` key. -/
def unrecognized_message (m : AgentRawMsg) : Bool :=
  !(m.type == "conversation_initiation_metadata") && !m.audio_event.isSome &&
  !(m.type == "user_transcript") && !(m.type == "agent_response") &&
  !(m.type == "ping") && !m.error.isSome

/-
`ElevenLabsConversationHandler.start`: relay phase. Frontend messages read
by `forward_to_elevenlabs`, by their `type` discriminator.
-/

inductive FrontendMsg where
  | audio (data : String)
  | interrupt
  | endCall
  | other (t : String)
deriving Repr, DecidableEq

/-- Messages sent on the agent socket (`self.elevenlabs_ws.send`). -/
inductive AgentSocketOut where
  | user_audio_chunk (data : String)
  | interrupt_signal
deriving Repr, DecidableEq

/-- The WAV-silence chunk `start` sends to trigger the agent greeting. -/
def initial_silence : String :=
  "UklGRiQAAABXQVZFZm10IBAAAAABAAEARKwAAIhYAQACABAAZGF0YQAAAAA="

structure HandlerState where
  is_active : Bool
  frontend_in : List FrontendMsg
  agent_in : List AgentRawMsg
  sent_to_elevenlabs : List AgentSocketOut
  relay_out : List RelayAction
  fwd_done : Bool
  recv_done : Bool
deriving Repr, DecidableEq

/-- One iteration of `forward_to_elevenlabs`: the `while self.is_active`
check, then one frontend receive. An exhausted stream means the receive
raises (socket closed); the handler catches, sets `is_active = False`, and
the task ends. An `end` message does the same after a clean break. Types
outside the chain are skipped. -/
def fwd_step (s : HandlerState) : HandlerState :=
  if !s.is_active then { s with fwd_done := true } else
  match s.frontend_in with
  | [] => { s with is_active := false, fwd_done := true }
  | .audio d :: rest =>
      { s with frontend_in := rest,
               sent_to_elevenlabs := s.sent_to_elevenlabs ++ [.user_audio_chunk d] }
  | .interrupt :: rest =>
      { s with frontend_in := rest,
               sent_to_elevenlabs := s.sent_to_elevenlabs ++ [.interrupt_signal] }
  | .endCall :: rest => { s with frontend_in := rest, is_active := false, fwd_done := true }
  | .other _ :: rest => { s with frontend_in := rest }

/-- One iteration of `forward_from_elevenlabs`: the `while self.is_active`
check, then one agent-socket receive. `ConnectionClosed` (exhausted stream)
sets `is_active = False` and ends the task; a received message is dispatched
through `process_agent_message`. -/
def recv_step (conversation_id : Option String) (s : HandlerState) : HandlerState :=
  if !s.is_active then { s with recv_done := true } else
  match s.agent_in with
  | [] => { s with is_active := false, recv_done := true }
  | m :: rest =>
      { s with agent_in := rest,
               relay_out := s.relay_out ++ process_agent_message conversation_id m }

/-- The relay phase of `ElevenLabsConversationHandler.start`:
`asyncio.wait([forward_task, receive_task], return_when=FIRST_COMPLETED)`
followed by `task.cancel()` on the pending task — the interleaved run stops
the instant either task completes, and the survivor takes no further step. -/
def handler_relay (conversation_id : Option String) : List Bool → HandlerState → HandlerState
  | [], s => s
  | b :: sched, s =>
      if s.fwd_done ∨ s.recv_done then s
      else handler_relay conversation_id sched
        (if b then fwd_step s else recv_step conversation_id s)

/-- The handler state right after `start` connects and sends the initial
silence chunk, before the two relay tasks run. -/
def handler_start_state (frontend_in : List FrontendMsg) (agent_in : List AgentRawMsg) :
    HandlerState :=
  { is_active := true, frontend_in := frontend_in, agent_in := agent_in,
    sent_to_elevenlabs := [.user_audio_chunk initial_silence], relay_out := [],
    fwd_done := false, recv_done := false }

/-
ConversationHistory / ConversationSummary (src/models/conversation.py).
Timestamps are microseconds. The pydantic `ConversationHistory` class
declares NO `status` field (and no `extra = "allow"` config): the
`status="active"` constructor kwarg passed by `start_conversation` is
silently ignored, and assigning `conversation.status` raises `ValueError`
(see `no_status_field_error`). The Lean structure still carries a `status`
field so that the embedding can state that `get_summary` never reads the
lifecycle status the service code refers to; the assignment that would
write it is modelled as the raise it really is.
-/

structure ConversationMessage where
  timestamp : Int
  speaker : String
  text : String
  audio_duration : Option Int
deriving Repr, DecidableEq

structure ConversationHistory where
  conversation_id : String
  agent_id : String
  agent_name : String
  caller_phone : String
  caller_name : Option String
  start_time : Int
  end_time : Option Int
  language : String
  country_code : String
  messages : List ConversationMessage
  metadata : Option String
  status : String
deriving Repr, DecidableEq

structure ConversationSummary where
  conversation_id : String
  agent_id : String
  agent_name : String
  caller_phone : String
  caller_name : Option String
  start_time : Int
  end_time : Option Int
  duration_seconds : Option Int
  message_count : Nat
  language : String
  country_code : String
  status : String
deriving Repr, DecidableEq

/-- `ConversationHistory.add_message`: append one message. -/
def ConversationHistory.add_message (h : ConversationHistory) (speaker text : String)
    (audio_duration : Option Int) (now : Int) : ConversationHistory :=
  { h with messages := h.messages ++
      [{ timestamp := now, speaker := speaker, text := text, audio_duration := audio_duration }] }

/-- `ConversationHistory.get_summary`. A `datetime` is always truthy, so
`if self.end_time and self.start_time` tests only the presence of
`end_time`; `int(...total_seconds())` truncates toward zero (`Int.tdiv` of
the microsecond difference by 1000000); the summary status is derived from
`end_time` alone, never from the stored `status` attribute. -/
def ConversationHistory.get_summary (h : ConversationHistory) : ConversationSummary :=
  let duration : Option Int :=
    match h.end_time with
    | some e => some (Int.tdiv (e - h.start_time) 1000000)
    | none => none
  let status := if h.end_time.isSome then "completed" else "active"
  { conversation_id := h.conversation_id, agent_id := h.agent_id,
    agent_name := h.agent_name, caller_phone := h.caller_phone,
    caller_name := h.caller_name, start_time := h.start_time,
    end_time := h.end_time, duration_seconds := duration,
    message_count := h.messages.length, language := h.language,
    country_code := h.country_code, status := status }

/-
ConversationService (src/services/conversation_service.py): repository
contents plus the active-conversations cache. The cache and the repository
alias the same object in Python, so a mutation through the cached reference
is saved back to both.
-/

structure ConvServiceState where
  repo : List (String × ConversationHistory)
  active_conversations : List (String × ConversationHistory)
deriving Repr, DecidableEq

/-- `ConversationService.add_message`: look in the cache, then the
repository (caching a hit); an unknown id only logs an error and returns;
otherwise the message is appended and the conversation saved. -/
def service_add_message (st : ConvServiceState) (conversation_id speaker text : String)
    (audio_duration : Option Int) (now : Int) : ConvServiceState :=
  match dget conversation_id st.active_conversations with
  | some conv =>
      let conv' := conv.add_message speaker text audio_duration now
      { repo := dset conversation_id conv' st.repo,
        active_conversations := dset conversation_id conv' st.active_conversations }
  | none =>
      match dget conversation_id st.repo with
      | some conv =>
          let conv' := conv.add_message speaker text audio_duration now
          { repo := dset conversation_id conv' st.repo,
            active_conversations := dset conversation_id conv' st.active_conversations }
      | none => st

/-- The `ValueError` pydantic raises when `conversation.status = "ended"`
(conversation_service.py line 89) assigns an attribute the
`ConversationHistory` model does not declare. -/
def no_status_field_error : String :=
  "\x22ConversationHistory\x22 object has no field \x22status\x22"

/-- `ConversationService.end_conversation`, with its real error path:
the conversation is resolved from the cache first, the repository second
(an unknown id only logs a warning and returns normally). On a hit,
`conversation.end_time = datetime.utcnow()` succeeds (`end_time` is a
declared field) — mutating the cached object in place when the hit came
from the cache, or only a fresh parsed object when it came from the
repository — but the next statement, `conversation.status = "ended"`,
assigns an undeclared pydantic field and raises `ValueError`; the
`repository.save` and the cache removal below it are never reached.
The result pairs the state as left at the raise with the raised message
(`none` = returned without raising). -/
def service_end_conversation (st : ConvServiceState) (conversation_id : String)
    (now : Int) : ConvServiceState × Option String :=
  match dget conversation_id st.active_conversations with
  | some conv =>
      ({ st with
         active_conversations :=
           dset conversation_id ({ conv with end_time := some now }) st.active_conversations },
       some no_status_field_error)
  | none =>
      match dget conversation_id st.repo with
      | some _ => (st, some no_status_field_error)
      | none => (st, none)

/-
CallSessionService (src/domain/services.py).
-/

structure CallSession where
  conversation_id : String
  caller_phone : String
  agent_id : String
  agent_name : String
  country_code : String
  language : String
  status : String
  start_time : Int
  caller_name : Option String
  custom_context : Option String
deriving Repr, DecidableEq

/-- The session registry (`_active_sessions`) together with the
conversation service it drives on teardown. -/
structure RegistryState where
  active_sessions : List (String × CallSession)
  conv : ConvServiceState
deriving Repr, DecidableEq

/-- `CallSessionService.update_session_status`: unconditional overwrite of
the status when the id is known, no-op otherwise. -/
def update_session_status (st : RegistryState) (conversation_id status : String) :
    RegistryState :=
  match dget conversation_id st.active_sessions with
  | some sess =>
      { st with
        active_sessions := dset conversation_id ({ sess with status := status }) st.active_sessions }
  | none => st

/-- `CallSessionService.end_session`, with the error path propagated: a
known id first gets its session's status set to `"ended"` (a plain
dataclass assignment, in place in the map, which succeeds); then
`end_conversation` runs, and only when it returns normally is the session
deleted from the active map — when it raises, the `del` is never reached
and the exception propagates with the session still registered. Unknown
ids are a no-op that raises nothing. -/
def end_session (st : RegistryState) (conversation_id : String) (now : Int) :
    RegistryState × Option String :=
  match dget conversation_id st.active_sessions with
  | none => (st, none)
  | some sess =>
      let sessions1 := dset conversation_id ({ sess with status := "ended" }) st.active_sessions
      match service_end_conversation st.conv conversation_id now with
      | (conv1, some err) => ({ active_sessions := sessions1, conv := conv1 }, some err)
      | (conv1, none) =>
          ({ active_sessions := ddel conversation_id sessions1, conv := conv1 }, none)

/-- The session lifecycle order of the spec (`initialized → active → ended`),
as a rank; used to state monotonicity. -/
def statusRank : String → Nat
  | "active" => 1
  | "ended" => 2
  | _ => 0

/-- Case-insensitive language match used by both `get_agent_by_language`
loops: the config's `language` value (defaulted to `""` when absent)
compared to the query tag, both lowercased. -/
def langMatches (tag : String) (p : String × RawConfig) : Bool :=
  pyLower ((dget "language" p.2).getD "") == pyLower tag

/-
Theorems. Helper lemmas about the dict model first, then one theorem per
claim (with witnesses / counterexamples).
-/

theorem dget_dset_self {α : Type u} (k : String) (v : α) :
    ∀ l : List (String × α), dget k (dset k v l) = some v
  | [] => by simp [dget, dset]
  | (k', v') :: rest => by
      by_cases h : k' = k
      · simp [dset, h, dget]
      · simp [dset, h, dget, dget_dset_self k v rest]

theorem dget_ddel_self {α : Type u} (k : String) :
    ∀ l : List (String × α), dget k (ddel k l) = none
  | [] => rfl
  | (k', v') :: rest => by
      by_cases h : k' = k
      · simpa [ddel, List.filter_cons, h] using dget_ddel_self k rest
      · simpa [ddel, List.filter_cons, h, dget] using dget_ddel_self k rest

theorem dmem_eq_false_iff {α : Type u} (k : String) (l : List (String × α)) :
    dmem k l = false ↔ dget k l = none := by
  unfold dmem
  cases dget k l <;> simp

/-- Every config stored in the factory's initial directory carries the four
fields `create_agent` reads. -/
theorem initial_agents_complete (k : String) (cfg : RawConfig)
    (h : dget k initial_agents = some cfg) : completeConfig cfg = true := by
  simp only [initial_agents, dget] at h
  split_ifs at h <;> cases h <;> decide

/-- A complete config always yields an `Agent`. -/
theorem agentOfConfig_isSome (code : String) (cfg : RawConfig)
    (h : completeConfig cfg = true) : (agentOfConfig code cfg).isSome := by
  unfold completeConfig dmem at h
  unfold agentOfConfig
  cases h1 : dget "agent_id" cfg <;> cases h2 : dget "name" cfg <;>
    cases h3 : dget "language" cfg <;> cases h4 : dget "context" cfg <;>
    simp_all

/-- C2: Agent Directory lookup is total with case-insensitive matching —
for every input code, `create_agent` on the factory's initial directory
returns an agent (never an error): the profile registered under the
uppercased code when present, otherwise the default (`"AR"`) profile; and
`AgentMapper.get_agent_by_country` is the dict lookup of the uppercased
code with `DEFAULT_AGENT` as fallback. -/
theorem claim_C2_directory_lookup_total (code : String) :
    (∃ a : Agent, create_agent initial_agents code = some a) ∧
    (∀ cfg, dget (pyUpper code) initial_agents = some cfg →
      create_agent initial_agents code = agentOfConfig (pyUpper code) cfg) ∧
    (dget (pyUpper code) initial_agents = none →
      create_agent initial_agents code = agentOfConfig "AR" arConfig) ∧
    mapper_get_agent_by_country code = (dget (pyUpper code) AGENT_MAP).getD DEFAULT_AGENT := by
  refine ⟨?_, ?_, ?_, rfl⟩
  · cases h : dget (pyUpper code) initial_agents with
    | some cfg =>
        have hc : create_agent initial_agents code = agentOfConfig (pyUpper code) cfg := by
          unfold create_agent dmem
          simp [h]
        have := agentOfConfig_isSome (pyUpper code) cfg (initial_agents_complete _ _ h)
        rcases Option.isSome_iff_exists.mp (hc ▸ this) with ⟨a, ha⟩
        exact ⟨a, ha⟩
    | none =>
        have hc : create_agent initial_agents code = agentOfConfig "AR" arConfig := by
          unfold create_agent dmem default_country
          simp [h]
          rfl
        exact ⟨_, by rw [hc]; rfl⟩
  · intro cfg h
    unfold create_agent dmem
    simp [h]
  · intro h
    unfold create_agent dmem default_country
    simp [h]
    rfl

/-- Witness for C2: the lookup at the known code `"mx"` (lowercase) and at
the unsupported code `"xx"`, both produced by applying the theorem. -/
theorem claim_C2_witness :
    (∃ a : Agent, create_agent initial_agents "mx" = some a) ∧
    create_agent initial_agents "mx" = agentOfConfig (pyUpper "mx") mxConfig ∧
    create_agent initial_agents "xx" = agentOfConfig "AR" arConfig :=
  ⟨(claim_C2_directory_lookup_total "mx").1,
   (claim_C2_directory_lookup_total "mx").2.1 mxConfig (by rfl),
   (claim_C2_directory_lookup_total "xx").2.2.1 (by rfl)⟩

theorem check_required_eq_none (cfg : RawConfig) :
    ∀ fs : List String, check_required cfg fs = none ↔ ∀ f ∈ fs, dmem f cfg = true
  | [] => by simp [check_required]
  | f :: rest => by
      by_cases h : dmem f cfg
      · simp [check_required, h, check_required_eq_none cfg rest]
      · simp [check_required, h]

theorem check_required_eq_some (cfg : RawConfig) :
    ∀ fs : List String, ∀ f', check_required cfg fs = some f' →
      f' ∈ fs ∧ dmem f' cfg = false
  | [] => by simp [check_required]
  | f :: rest => by
      intro f' h
      by_cases hf : dmem f cfg
      · simp only [check_required, hf, if_pos] at h
        rcases check_required_eq_some cfg rest f' h with ⟨h1, h2⟩
        exact ⟨by simp [h1], h2⟩
      · simp only [check_required, hf, if_neg, Bool.false_eq_true, not_false_iff] at h
        cases h
        exact ⟨by simp, by simpa using hf⟩

/-- C7: registering a profile that lacks a required field (agent id, name,
language, context) fails with a `ValueError` naming a missing field, and
the failure happens before the directory is touched (the `Except.error`
carries no updated state — in the source the `raise` precedes the
assignment, so `self._agents` is unchanged); with all required fields
present, the config is stored under the uppercased country code. -/
theorem claim_C7_register_validation (agents : List (String × RawConfig))
    (code : String) (cfg : RawConfig) :
    ((∀ f ∈ required_fields, dmem f cfg = true) →
      register_agent agents code cfg = .ok (dset (pyUpper code) cfg agents)) ∧
    (∀ f ∈ required_fields, dmem f cfg = false →
      ∃ f', f' ∈ required_fields ∧ dmem f' cfg = false ∧
        register_agent agents code cfg = .error ("Missing required field: " ++ f')) := by
  constructor
  · intro hall
    unfold register_agent
    rw [(check_required_eq_none cfg required_fields).mpr hall]
  · intro f hf hmiss
    unfold register_agent
    cases h : check_required cfg required_fields with
    | none =>
        exact absurd ((check_required_eq_none cfg required_fields).mp h f hf)
          (by simp [hmiss])
    | some f' =>
        rcases check_required_eq_some cfg required_fields f' h with ⟨h1, h2⟩
        exact ⟨f', h1, h2, rfl⟩

/-- Witness for C7: a complete registration is stored under the uppercased
code; a registration missing `language` is rejected with an error naming a
missing field. -/
theorem claim_C7_witness :
    register_agent initial_agents "br"
        [("agent_id", "a1"), ("name", "n1"), ("language", "pt-BR"), ("context", "c1")] =
      .ok (dset (pyUpper "br")
        [("agent_id", "a1"), ("name", "n1"), ("language", "pt-BR"), ("context", "c1")]
        initial_agents) ∧
    (∃ f', f' ∈ required_fields ∧
      dmem f' [("agent_id", "a1"), ("name", "n1"), ("context", "c1")] = false ∧
      register_agent initial_agents "br" [("agent_id", "a1"), ("name", "n1"), ("context", "c1")] =
        .error ("Missing required field: " ++ f')) :=
  ⟨(claim_C7_register_validation initial_agents "br" _).1 (by decide),
   (claim_C7_register_validation initial_agents "br" _).2 "language" (by decide) (by decide)⟩

theorem language_loop_eq_find (agents : List (String × RawConfig)) (tag : String) :
    ∀ l : List (String × RawConfig), (∀ p ∈ l, dmem "language" p.2 = true) →
      language_loop agents tag l =
        match l.find? (langMatches tag) with
        | some p =>
            match create_agent agents p.1 with
            | some a => some (some a)
            | none => none
        | none => some none
  | [] => by simp [language_loop]
  | (cc, cfg) :: rest => by
      intro hall
      have hlang : (dget "language" cfg).isSome := by
        have := hall (cc, cfg) (by simp)
        simpa [dmem] using this
      rcases Option.isSome_iff_exists.mp hlang with ⟨l, hl⟩
      by_cases hm : pyLower l = pyLower tag
      · simp [language_loop, hl, hm, List.find?_cons, langMatches]
      · have : langMatches tag (cc, cfg) = false := by
          simp [langMatches, hl]
          exact hm
        simp only [language_loop, hl, if_neg hm, List.find?_cons, this]
        exact language_loop_eq_find agents tag rest (fun p hp => hall p (by simp [hp]))

theorem mapper_language_loop_eq_find (tag : String) :
    ∀ l : List (String × RawConfig), (∀ p ∈ l, dmem "language" p.2 = true) →
      mapper_language_loop tag l =
        match l.find? (langMatches tag) with
        | some p => some p.2
        | none => some DEFAULT_AGENT
  | [] => by simp [mapper_language_loop]
  | (cc, cfg) :: rest => by
      intro hall
      have hlang : (dget "language" cfg).isSome := by
        have := hall (cc, cfg) (by simp)
        simpa [dmem] using this
      rcases Option.isSome_iff_exists.mp hlang with ⟨l, hl⟩
      by_cases hm : pyLower l = pyLower tag
      · simp [mapper_language_loop, hl, hm, List.find?_cons, langMatches]
      · have : langMatches tag (cc, cfg) = false := by
          simp [langMatches, hl]
          exact hm
        simp only [mapper_language_loop, hl, if_neg hm, List.find?_cons, this]
        exact mapper_language_loop_eq_find tag rest (fun p hp => hall p (by simp [hp]))

/-- Every entry of the factory's initial directory yields an agent through
`create_agent` when looked up by its own key. -/
theorem initial_agents_create_own :
    ∀ p ∈ initial_agents, (create_agent initial_agents p.1).isSome := by
  decide

/-- C8 as stated is false on `AgentMapper.get_agent_by_language`: for the
tag `"fr-FR"` no registered profile's language matches, yet the mapper
returns the designated default profile (`DEFAULT_AGENT`, the US agent)
rather than an absent result. -/
theorem claim_C8_counterexample :
    AGENT_MAP.find? (langMatches "fr-FR") = none ∧
    mapper_get_agent_by_language "fr-FR" = some DEFAULT_AGENT := by
  exact ⟨by rfl, by rfl⟩

/-- C8 (amended): lookup by language scans the registered profiles in
insertion order for the first case-insensitive language match. The
factory's `get_agent_by_language` returns that profile's agent, and an
absent result (`Python None`) when no language matches; the mapper's
`get_agent_by_language`, however, falls back to `DEFAULT_AGENT` instead of
an absent result when no language matches. -/
theorem claim_C8_resolve_by_language (tag : String) :
    (get_agent_by_language initial_agents tag =
      match initial_agents.find? (langMatches tag) with
      | some p =>
          match create_agent initial_agents p.1 with
          | some a => some (some a)
          | none => none
      | none => some none) ∧
    (∀ p, initial_agents.find? (langMatches tag) = some p →
      ∃ a, create_agent initial_agents p.1 = some a ∧
        get_agent_by_language initial_agents tag = some (some a)) ∧
    (mapper_get_agent_by_language tag =
      match AGENT_MAP.find? (langMatches tag) with
      | some p => some p.2
      | none => some DEFAULT_AGENT) := by
  have hfac : ∀ p ∈ initial_agents, dmem "language" p.2 = true := by decide
  have hmap : ∀ p ∈ AGENT_MAP, dmem "language" p.2 = true := by decide
  have h1 : get_agent_by_language initial_agents tag =
      match initial_agents.find? (langMatches tag) with
      | some p =>
          match create_agent initial_agents p.1 with
          | some a => some (some a)
          | none => none
      | none => some none :=
    language_loop_eq_find initial_agents tag initial_agents hfac
  refine ⟨h1, ?_, mapper_language_loop_eq_find tag AGENT_MAP hmap⟩
  intro p hp
  have hmem : p ∈ initial_agents := List.mem_of_find?_eq_some hp
  rcases Option.isSome_iff_exists.mp (initial_agents_create_own p hmem) with ⟨a, ha⟩
  refine ⟨a, ha, ?_⟩
  rw [h1, hp]
  simp [ha]

/-- Witness for C8: the tag `"ES-mx"` resolves (case-insensitively) to the
Mexican profile through the factory, and the unmatched tag `"pt-br"` makes
the mapper return the Brazilian profile it does have registered. -/
theorem claim_C8_witness :
    (∃ a : Agent, create_agent initial_agents ("MX", mxConfig).1 = some a ∧
      get_agent_by_language initial_agents "ES-mx" = some (some a)) ∧
    mapper_get_agent_by_language "pt-br" = some mapBrConfig :=
  ⟨(claim_C8_resolve_by_language "ES-mx").2.1 ("MX", mxConfig) (by rfl),
   by rw [(claim_C8_resolve_by_language "pt-br").2.2]; rfl⟩

theorem decChar_encChar (i : Nat) (h : i < 64) : decChar (encChar i) = some i := by
  interval_cases i <;> rfl

theorem encChar_ne_61 (i : Nat) (h : i < 64) : encChar i ≠ 61 := by
  interval_cases i <;> decide

theorem b64_roundtrip : ∀ bs : List Nat, (∀ x ∈ bs, x < 256) →
    b64decodeBytes (b64encodeBytes bs) = some bs
  | [] => fun _ => rfl
  | [a] => by
      intro h
      have ha : a < 256 := h a (by simp)
      have h1 : a / 4 < 64 := by omega
      have h2 : a % 4 * 16 < 64 := by omega
      simp only [b64encodeBytes, b64decodeBytes, decChar_encChar _ h1, decChar_encChar _ h2,
        if_pos rfl, and_self, reduceIte]
      simp
      omega
  | [a, b] => by
      intro h
      have ha : a < 256 := h a (by simp)
      have hb : b < 256 := h b (by simp)
      have h1 : a / 4 < 64 := by omega
      have h2 : a % 4 * 16 + b / 16 < 64 := by omega
      have h3 : b % 16 * 4 < 64 := by omega
      simp only [b64encodeBytes, b64decodeBytes, decChar_encChar _ h1, decChar_encChar _ h2,
        decChar_encChar _ h3, if_neg (encChar_ne_61 _ h3), if_pos rfl, reduceIte]
      simp
      omega
  | a :: b :: c :: rest => by
      intro h
      have ha : a < 256 := h a (by simp)
      have hb : b < 256 := h b (by simp)
      have hc : c < 256 := h c (by simp)
      have h1 : a / 4 < 64 := by omega
      have h2 : a % 4 * 16 + b / 16 < 64 := by omega
      have h3 : b % 16 * 4 + c / 64 < 64 := by omega
      have h4 : c % 64 < 64 := by omega
      have ih := b64_roundtrip rest (fun x hx => h x (by simp [hx]))
      simp only [b64encodeBytes, b64decodeBytes, decChar_encChar _ h1, decChar_encChar _ h2,
        decChar_encChar _ h3, decChar_encChar _ h4,
        if_neg (encChar_ne_61 _ h3), if_neg (encChar_ne_61 _ h4), ih, Option.map_some]
      simp
      omega

theorem twilio_to_elevenlabs_foldl (acc : List (List Nat)) :
    ∀ chunks : List (List Nat), chunks.foldl handler_send_audio acc = acc
  | [] => rfl
  | _ :: rest => twilio_to_elevenlabs_foldl acc rest

/-- C3 as stated is false on the code: the telephony adapter decodes the
inbound `media` frame (payload `"AAAA"` decodes to the bytes `[0,0,0]`),
but the bridged caller-to-agent direction hands every chunk to
`ElevenLabsConversationHandler.send_audio`, which is `pass` — nothing at
all is forwarded to the agent socket, so the frame never arrives there. -/
theorem claim_C3_counterexample :
    twilio_receive_audio [TwilioMsg.media [65, 65, 65, 65]] = [[0, 0, 0]] ∧
    twilio_to_elevenlabs [TwilioMsg.media [65, 65, 65, 65]] = [] :=
  ⟨by rfl, by rfl⟩

/-- C3 (amended): decoding after encoding is the identity on every byte
payload — the container round-trip itself is loss-free — but the
caller-to-agent relay of `AudioBridge.bridge_streams` forwards nothing:
every decoded chunk goes to the handler's documented legacy no-op
`send_audio`, so no media frame reaches the agent socket at all. -/
theorem claim_C3_base64_roundtrip :
    (∀ bs : List Nat, (∀ x ∈ bs, x < 256) →
      b64decodeBytes (b64encodeBytes bs) = some bs) ∧
    (∀ msgs : List TwilioMsg, twilio_to_elevenlabs msgs = []) :=
  ⟨b64_roundtrip, fun msgs => twilio_to_elevenlabs_foldl [] (twilio_receive_audio msgs)⟩

/-- Witness for C3: the round-trip identity evaluated on the concrete bytes
`[0, 1, 255]`, and the empty agent-socket send list for a concrete frame. -/
theorem claim_C3_witness :
    b64decodeBytes (b64encodeBytes [0, 1, 255]) = some [0, 1, 255] ∧
    twilio_to_elevenlabs [TwilioMsg.media [65, 66, 67, 68]] = [] :=
  ⟨claim_C3_base64_roundtrip.1 [0, 1, 255] (by decide),
   claim_C3_base64_roundtrip.2 [TwilioMsg.media [65, 66, 67, 68]]⟩

theorem process_agent_message_unrecognized (cid : Option String) (m : AgentRawMsg)
    (h : unrecognized_message m = true) : process_agent_message cid m = [] := by
  unfold unrecognized_message at h
  simp only [Bool.and_eq_true, Bool.not_eq_true'] at h
  obtain ⟨⟨⟨⟨⟨h1, h2⟩, h3⟩, h4⟩, h5⟩, h6⟩ := h
  unfold process_agent_message
  split_ifs <;> simp_all

/-- C6: an inbound agent wire message whose discriminator matches no known
event type is harmless — it produces no frontend send, no transcript
append, and no error, and deleting it from the stream leaves the relay's
output on every other message unchanged (all well-formed messages before
and after it are still processed normally). -/
theorem claim_C6_unrecognized_harmless (cid : Option String)
    (ms1 ms2 : List AgentRawMsg) (m : AgentRawMsg)
    (h : unrecognized_message m = true) :
    forward_from_elevenlabs cid (ms1 ++ m :: ms2) =
      forward_from_elevenlabs cid (ms1 ++ ms2) := by
  induction ms1 with
  | nil => simp [forward_from_elevenlabs, process_agent_message_unrecognized cid m h]
  | cons x xs ih => simp [forward_from_elevenlabs, ih]

/-- Witness for C6: a `"mystery"`-typed message dropped between a ping and
a user transcript leaves the relay output unchanged. -/
theorem claim_C6_witness :
    unrecognized_message ⟨"mystery", none, none, "", "", none⟩ = true ∧
    forward_from_elevenlabs (some "c1")
        ([⟨"ping", none, none, "", "", none⟩] ++
          ⟨"mystery", none, none, "", "", none⟩ ::
          [⟨"user_transcript", none, none, "hola", "", none⟩]) =
      forward_from_elevenlabs (some "c1")
        ([⟨"ping", none, none, "", "", none⟩] ++
          [⟨"user_transcript", none, none, "hola", "", none⟩]) :=
  ⟨by rfl, claim_C6_unrecognized_harmless (some "c1") _ _ _ (by rfl)⟩

theorem fwd_step_recv_done (s : HandlerState) : (fwd_step s).recv_done = s.recv_done := by
  unfold fwd_step
  split
  · rfl
  · split <;> rfl

theorem recv_step_fwd_done (cid : Option String) (s : HandlerState) :
    (recv_step cid s).fwd_done = s.fwd_done := by
  unfold recv_step
  split
  · rfl
  · split <;> rfl

theorem handler_relay_halts (cid : Option String) :
    ∀ (sched : List Bool) (s : HandlerState),
      s.fwd_done = true ∨ s.recv_done = true → handler_relay cid sched s = s
  | [], _, _ => rfl
  | b :: sched, s, h => by
      unfold handler_relay
      rw [if_pos (by simpa using h)]

theorem handler_relay_not_both (cid : Option String) :
    ∀ (sched : List Bool) (s : HandlerState),
      ¬(s.fwd_done = true ∧ s.recv_done = true) →
      ¬((handler_relay cid sched s).fwd_done = true ∧
        (handler_relay cid sched s).recv_done = true)
  | [], _, h => h
  | b :: sched, s, h => by
      unfold handler_relay
      by_cases hd : s.fwd_done = true ∨ s.recv_done = true
      · rw [if_pos (by simpa using hd)]; exact h
      · push_neg at hd
        rw [if_neg (by simpa using hd)]
        apply handler_relay_not_both cid sched
        cases b
        · show ¬((recv_step cid s).fwd_done = true ∧ (recv_step cid s).recv_done = true)
          intro hc
          rw [recv_step_fwd_done] at hc
          exact absurd hc.1 (by simp [hd.1])
        · show ¬((fwd_step s).fwd_done = true ∧ (fwd_step s).recv_done = true)
          intro hc
          rw [fwd_step_recv_done] at hc
          exact absurd hc.2 (by simp [hd.2])

theorem bridgeRun_drains :
    ∀ (chunks : List (List Nat)) (s : BridgeState),
      s.agent_chunks = chunks → s.e2t_done = false →
      (bridgeRun (List.replicate chunks.length false) s).sent_to_caller =
        s.sent_to_caller ++ elevenlabs_to_twilio s.stream_sid chunks
  | [], s, hc, hd => by simp [bridgeRun, elevenlabs_to_twilio, List.replicate]
  | c :: rest, s, hc, hd => by
      have hstep : e2tStep s =
          { s with agent_chunks := rest,
                   sent_to_caller := s.sent_to_caller ++ [twilio_send_audio_frame s.stream_sid c] } := by
        unfold e2tStep
        rw [if_neg (by simp [hd]), hc]
      have hrun : bridgeRun (List.replicate (c :: rest).length false) s =
          bridgeRun (List.replicate rest.length false) (e2tStep s) := rfl
      rw [hrun,
        bridgeRun_drains rest (e2tStep s) (by rw [hstep]) (by rw [hstep]; exact hd),
        hstep]
      simp [elevenlabs_to_twilio]

/-- C1 as stated is false on `AudioBridge.bridge_streams`: starting the
gather with an immediate `stop` frame, the caller-to-agent direction
terminates cleanly at once (nothing forwarded); yet the surviving
agent-to-caller direction, far from being cancelled, subsequently forwards
both of its pending audio chunks to the telephony socket and runs to its
own completion — the survivor drains, the relay does not end at the first
termination. -/
theorem claim_C1_counterexample :
    (t2eStep { twilio_in := [TwilioMsg.stop], agent_chunks := [[1], [2]],
               stream_sid := none, sent_to_agent := [], sent_to_caller := [],
               t2e_done := false, e2t_done := false }).t2e_done = true ∧
    (t2eStep { twilio_in := [TwilioMsg.stop], agent_chunks := [[1], [2]],
               stream_sid := none, sent_to_agent := [], sent_to_caller := [],
               t2e_done := false, e2t_done := false }).sent_to_caller = [] ∧
    (bridgeRun [false, false, false]
      (t2eStep { twilio_in := [TwilioMsg.stop], agent_chunks := [[1], [2]],
                 stream_sid := none, sent_to_agent := [], sent_to_caller := [],
                 t2e_done := false, e2t_done := false })).sent_to_caller =
      [twilio_send_audio_frame none [1], twilio_send_audio_frame none [2]] ∧
    (bridgeRun [false, false, false]
      (t2eStep { twilio_in := [TwilioMsg.stop], agent_chunks := [[1], [2]],
                 stream_sid := none, sent_to_agent := [], sent_to_caller := [],
                 t2e_done := false, e2t_done := false })).e2t_done = true := by
  refine ⟨rfl, rfl, by decide, rfl⟩

/-- C1 (amended): the termination tie-break holds for
`ElevenLabsConversationHandler.start` — its `asyncio.wait(...,
FIRST_COMPLETED)` plus `cancel()` run takes no step once either direction
has completed, and under every interleaving at most one direction ever
completes (the survivor is cancelled first) — but not for
`AudioBridge.bridge_streams`, whose `asyncio.gather` lets the surviving
agent-to-caller direction drain its entire remaining input after the
caller-to-agent direction has terminated. -/
theorem claim_C1_relay_termination (cid : Option String) :
    (∀ (sched : List Bool) (s : HandlerState),
      s.fwd_done = true ∨ s.recv_done = true → handler_relay cid sched s = s) ∧
    (∀ (sched : List Bool) (fe : List FrontendMsg) (ag : List AgentRawMsg),
      ¬((handler_relay cid sched (handler_start_state fe ag)).fwd_done = true ∧
        (handler_relay cid sched (handler_start_state fe ag)).recv_done = true)) ∧
    (∀ s : BridgeState, s.t2e_done = true → s.e2t_done = false →
      (bridgeRun (List.replicate s.agent_chunks.length false) s).sent_to_caller =
        s.sent_to_caller ++ elevenlabs_to_twilio s.stream_sid s.agent_chunks) :=
  ⟨handler_relay_halts cid,
   fun sched fe ag =>
     handler_relay_not_both cid sched (handler_start_state fe ag)
       (by simp [handler_start_state]),
   fun s _ hd => bridgeRun_drains s.agent_chunks s rfl hd⟩

/-- Witness for C1: the halting, cancellation, and draining facts evaluated
at concrete runs. -/
theorem claim_C1_witness :
    handler_relay none [false, true] (fwd_step (handler_start_state [] [])) =
      fwd_step (handler_start_state [] []) ∧
    ¬((handler_relay none [true, false] (handler_start_state [] [])).fwd_done = true ∧
      (handler_relay none [true, false] (handler_start_state [] [])).recv_done = true) ∧
    (bridgeRun (List.replicate ([[1], [2]] : List (List Nat)).length false)
        { twilio_in := [], agent_chunks := [[1], [2]], stream_sid := none,
          sent_to_agent := [], sent_to_caller := [],
          t2e_done := true, e2t_done := false }).sent_to_caller =
      ([] : List TwilioMediaFrame) ++ elevenlabs_to_twilio none [[1], [2]] :=
  ⟨(claim_C1_relay_termination none).1 [false, true]
     (fwd_step (handler_start_state [] [])) (Or.inl (by rfl)),
   (claim_C1_relay_termination none).2.1 [true, false] [] [],
   (claim_C1_relay_termination none).2.2
     { twilio_in := [], agent_chunks := [[1], [2]], stream_sid := none,
       sent_to_agent := [], sent_to_caller := [],
       t2e_done := true, e2t_done := false } (by rfl) (by rfl)⟩

/-- C9: `ConversationHistory.get_summary` derives its status solely from
`end_time` — `"completed"` exactly when an end time is set and `"active"`
otherwise, never `"ended"` regardless of the stored status attribute —
with `message_count` the number of recorded messages, and
`duration_seconds` the whole-second toward-zero truncation of
`end_time - start_time` when an end time is set, absent otherwise. -/
theorem claim_C9_get_summary (h : ConversationHistory) (s : String) :
    ConversationHistory.get_summary { h with status := s } = h.get_summary ∧
    h.get_summary.status = (if h.end_time.isSome then "completed" else "active") ∧
    h.get_summary.status ≠ "ended" ∧
    h.get_summary.message_count = h.messages.length ∧
    h.get_summary.duration_seconds =
      h.end_time.map (fun e => Int.tdiv (e - h.start_time) 1000000) ∧
    (h.get_summary.duration_seconds.isSome ↔ h.end_time.isSome) := by
  refine ⟨rfl, rfl, ?_, rfl, ?_, ?_⟩
  · have h2 : h.get_summary.status = (if h.end_time.isSome then "completed" else "active") := rfl
    rw [h2]
    by_cases hend : h.end_time.isSome <;> simp [hend]
  · cases hend : h.end_time <;> simp [ConversationHistory.get_summary, hend]
  · cases hend : h.end_time <;> simp [ConversationHistory.get_summary, hend]

/-- C10: appending a transcript message for a conversation id that is in
neither the active cache nor the repository is silently dropped —
`add_message` returns without raising and leaves the repository and cache
exactly as they were. -/
theorem claim_C10_add_message_unknown_id (st : ConvServiceState)
    (conversation_id speaker text : String) (dur : Option Int) (now : Int)
    (h1 : dget conversation_id st.active_conversations = none)
    (h2 : dget conversation_id st.repo = none) :
    service_add_message st conversation_id speaker text dur now = st := by
  unfold service_add_message
  rw [h1, h2]

/-- Witness for C10: adding a message for an unknown id to the empty
service state changes nothing. -/
theorem claim_C10_witness :
    service_add_message ⟨[], []⟩ "c9" "user" "hola" none 0 = (⟨[], []⟩ : ConvServiceState) :=
  claim_C10_add_message_unknown_id ⟨[], []⟩ "c9" "user" "hola" none 0 rfl rfl

/-- C4 names the intended behavior, but the code breaks it: on the normal
flow (`initialize_session` always starts conversation tracking, so the
conversation is in the active cache) the FIRST `end(id)` call raises.
`end_session` sets the session status, then `end_conversation` sets the
cached conversation's `end_time` and raises `ValueError` at
`conversation.status = "ended"` (an undeclared pydantic field) — before
the save and before `del self._active_sessions[...]`. Evaluated here at
that failing input: the call raises, the session is still registered
(status `"ended"`), the repository copy was never saved, the cache still
holds the entry (only `end_time` mutated), and a second call raises
again — so `end(id)` is neither exception-safe nor does it remove the
session. -/
theorem claim_C4_end_session_raises :
    (end_session
        { active_sessions := [("c1", ⟨"c1", "+54911", "a1", "Agente", "AR", "es-AR",
            "active", 0, none, none⟩)],
          conv := { repo := [("c1", ⟨"c1", "a1", "Agente", "+54911", none, 0, none,
            "es-AR", "AR", [], none, "active"⟩)],
                    active_conversations := [("c1", ⟨"c1", "a1", "Agente", "+54911", none, 0,
                      none, "es-AR", "AR", [], none, "active"⟩)] } }
        "c1" 5000000).2 = some no_status_field_error ∧
    dget "c1" ((end_session
        { active_sessions := [("c1", ⟨"c1", "+54911", "a1", "Agente", "AR", "es-AR",
            "active", 0, none, none⟩)],
          conv := { repo := [("c1", ⟨"c1", "a1", "Agente", "+54911", none, 0, none,
            "es-AR", "AR", [], none, "active"⟩)],
                    active_conversations := [("c1", ⟨"c1", "a1", "Agente", "+54911", none, 0,
                      none, "es-AR", "AR", [], none, "active"⟩)] } }
        "c1" 5000000).1.active_sessions) =
      some ⟨"c1", "+54911", "a1", "Agente", "AR", "es-AR", "ended", 0, none, none⟩ ∧
    dget "c1" ((end_session
        { active_sessions := [("c1", ⟨"c1", "+54911", "a1", "Agente", "AR", "es-AR",
            "active", 0, none, none⟩)],
          conv := { repo := [("c1", ⟨"c1", "a1", "Agente", "+54911", none, 0, none,
            "es-AR", "AR", [], none, "active"⟩)],
                    active_conversations := [("c1", ⟨"c1", "a1", "Agente", "+54911", none, 0,
                      none, "es-AR", "AR", [], none, "active"⟩)] } }
        "c1" 5000000).1.conv.repo) =
      some ⟨"c1", "a1", "Agente", "+54911", none, 0, none, "es-AR", "AR", [], none,
        "active"⟩ ∧
    dget "c1" ((end_session
        { active_sessions := [("c1", ⟨"c1", "+54911", "a1", "Agente", "AR", "es-AR",
            "active", 0, none, none⟩)],
          conv := { repo := [("c1", ⟨"c1", "a1", "Agente", "+54911", none, 0, none,
            "es-AR", "AR", [], none, "active"⟩)],
                    active_conversations := [("c1", ⟨"c1", "a1", "Agente", "+54911", none, 0,
                      none, "es-AR", "AR", [], none, "active"⟩)] } }
        "c1" 5000000).1.conv.active_conversations) =
      some ⟨"c1", "a1", "Agente", "+54911", none, 0, some 5000000, "es-AR", "AR", [], none,
        "active"⟩ ∧
    (end_session ((end_session
        { active_sessions := [("c1", ⟨"c1", "+54911", "a1", "Agente", "AR", "es-AR",
            "active", 0, none, none⟩)],
          conv := { repo := [("c1", ⟨"c1", "a1", "Agente", "+54911", none, 0, none,
            "es-AR", "AR", [], none, "active"⟩)],
                    active_conversations := [("c1", ⟨"c1", "a1", "Agente", "+54911", none, 0,
                      none, "es-AR", "AR", [], none, "active"⟩)] } }
        "c1" 5000000).1) "c1" 9000000).2 = some no_status_field_error :=
  ⟨rfl, rfl, rfl, rfl, rfl⟩

/-- C5 as stated is false: the registry does not enforce lifecycle
monotonicity. A session whose status is `"active"` is regressed to
`"initialized"` by a single `update_session_status` call — the overwritten
status has a strictly lower lifecycle rank, violating the claimed
invariant over arbitrary sequences of registry operations. -/
theorem claim_C5_counterexample :
    ¬ (∀ (st : RegistryState) (conversation_id status : String)
        (sess sess' : CallSession),
        dget conversation_id st.active_sessions = some sess →
        dget conversation_id
          (update_session_status st conversation_id status).active_sessions = some sess' →
        statusRank sess.status ≤ statusRank sess'.status) := by
  intro hmono
  have := hmono
    { active_sessions :=
        [("c1", ⟨"c1", "+54911", "a1", "Agente", "AR", "es-AR", "active", 0, none, none⟩)],
      conv := ⟨[], []⟩ }
    "c1" "initialized"
    ⟨"c1", "+54911", "a1", "Agente", "AR", "es-AR", "active", 0, none, none⟩
    ⟨"c1", "+54911", "a1", "Agente", "AR", "es-AR", "initialized", 0, none, none⟩
    (by rfl) (by rfl)
  simp [statusRank] at this

/-- C5 (amended): the registry itself guarantees no monotonicity —
`update_session_status` unconditionally overwrites the status of a known
session with whatever value it is given (so a regression to an earlier
lifecycle state is possible), and is a no-op for unknown ids. The only
status the registry itself writes on teardown is the terminal `"ended"`:
`end_session` on a known id either removes the entry (when the
conversation teardown returns normally) or — when that teardown raises,
as it does whenever the conversation is tracked — leaves the entry
registered with status `"ended"`. -/
theorem claim_C5_status_overwrite (st : RegistryState) (conversation_id status : String) :
    (∀ sess, dget conversation_id st.active_sessions = some sess →
      dget conversation_id
          (update_session_status st conversation_id status).active_sessions =
        some ({ sess with status := status })) ∧
    (dget conversation_id st.active_sessions = none →
      update_session_status st conversation_id status = st) ∧
    (∀ sess, dget conversation_id st.active_sessions = some sess →
      ∀ t : Int,
        dget conversation_id (end_session st conversation_id t).1.active_sessions =
          (if (end_session st conversation_id t).2.isSome
           then some ({ sess with status := "ended" }) else none)) := by
  refine ⟨?_, ?_, ?_⟩
  · intro sess h
    unfold update_session_status
    rw [h]
    exact dget_dset_self _ _ _
  · intro h
    unfold update_session_status
    rw [h]
  · intro sess h t
    unfold end_session
    rw [h]
    rcases hsvc : service_end_conversation st.conv conversation_id t with ⟨conv1, err⟩
    cases err
    · simp [dget_ddel_self]
    · simp [dget_dset_self]

/-- Witness for C5 (amended): overwriting the status of a known session,
the no-op on an unknown id, and both teardown outcomes of `end_session` —
removal when the conversation is untracked, the still-registered
`"ended"` entry when the teardown raises on a tracked conversation — at
concrete one-session registries. -/
theorem claim_C5_witness :
    dget "c1" ((update_session_status
        { active_sessions :=
            [("c1", ⟨"c1", "+54911", "a1", "Agente", "AR", "es-AR", "active", 0, none, none⟩)],
          conv := ⟨[], []⟩ } "c1" "initialized").active_sessions) =
      some ⟨"c1", "+54911", "a1", "Agente", "AR", "es-AR", "initialized", 0, none, none⟩ ∧
    update_session_status
        { active_sessions :=
            [("c1", ⟨"c1", "+54911", "a1", "Agente", "AR", "es-AR", "active", 0, none, none⟩)],
          conv := ⟨[], []⟩ } "zz" "active" =
      { active_sessions :=
          [("c1", ⟨"c1", "+54911", "a1", "Agente", "AR", "es-AR", "active", 0, none, none⟩)],
        conv := ⟨[], []⟩ } ∧
    dget "c1" ((end_session
        { active_sessions :=
            [("c1", ⟨"c1", "+54911", "a1", "Agente", "AR", "es-AR", "active", 0, none, none⟩)],
          conv := ⟨[], []⟩ } "c1" 7).1.active_sessions) = none ∧
    dget "c1" ((end_session
        { active_sessions :=
            [("c1", ⟨"c1", "+54911", "a1", "Agente", "AR", "es-AR", "active", 0, none, none⟩)],
          conv := { repo := [],
                    active_conversations := [("c1", ⟨"c1", "a1", "Agente", "+54911", none, 0,
                      none, "es-AR", "AR", [], none, "active"⟩)] } } "c1" 7).1.active_sessions) =
      some ⟨"c1", "+54911", "a1", "Agente", "AR", "es-AR", "ended", 0, none, none⟩ :=
  ⟨(claim_C5_status_overwrite _ "c1" "initialized").1
     ⟨"c1", "+54911", "a1", "Agente", "AR", "es-AR", "active", 0, none, none⟩ (by rfl),
   (claim_C5_status_overwrite _ "zz" "active").2.1 (by rfl),
   ((claim_C5_status_overwrite _ "c1" "x").2.2
     ⟨"c1", "+54911", "a1", "Agente", "AR", "es-AR", "active", 0, none, none⟩ (by rfl) 7).trans
     (by rfl),
   ((claim_C5_status_overwrite _ "c1" "x").2.2
     ⟨"c1", "+54911", "a1", "Agente", "AR", "es-AR", "active", 0, none, none⟩ (by rfl) 7).trans
     (by rfl)⟩
